import Mathlib

/-!
Verification of the staff-widget subsystem of the music-notes page.

The JavaScript source is shallowly embedded: numbers are modelled as exact
rationals (`ℚ`), `Math.round` as `⌊x + 1/2⌋` (JavaScript rounds half toward
positive infinity), DOM state as explicit records, and the event-driven
pieces (pointer gestures, debounced saving, load/import) as step functions
over explicit state and event lists.

The embedding follows the second (current) iteration contained in
`script.js`: constants `resolutionMultiplier = 2`, `numStaffLines = 5`,
`staffLedgerSpace = 4`, the staff-layout functions `getLineSpacing`,
`getStaffLineNumber`, `getYForStaffLineNumber`, the state-management
functions `buildStateObject`, `saveState` (debounced), `loadStateFromObject`,
and the pointer handlers installed by `addDrawingListeners`.  The older
iteration in `part_000` differs only where noted (its `drawStaffLines`
divides by `numLines + ledgerSpace - 1`).
-/

namespace MusicNotes

/-! ### Constants of the current iteration of script.js -/

def resolutionMultiplier : ℚ := 2

def eraserWidth : ℚ := 10

def pencilWidth : ℚ := 2

def numStaffLines : ℚ := 5

def staffLedgerSpace : ℚ := 4

/-- JavaScript `Math.round`: rounds to the nearest integer, half-way cases
toward positive infinity, i.e. `⌊x + 1/2⌋`. -/
def mathRound (x : ℚ) : ℤ := ⌊x + 1/2⌋

/-! ### Staff layout (script.js `getLineSpacing` / `getStaffLineNumber` /
`getYForStaffLineNumber` / `drawStaffLines`) -/

/-- `getLineSpacing(canvas)`: `displayHeight / (numStaffLines + staffLedgerSpace)`. -/
def getLineSpacing (displayHeight : ℚ) : ℚ :=
  displayHeight / (numStaffLines + staffLedgerSpace)

/-- `getStaffLineNumber(y, lineSpacing)`: rounds to the nearest half line,
`0.5 * Math.round(2.0 * (y / lineSpacing - staffLedgerSpace / 2))`. -/
def getStaffLineNumber (y lineSpacing : ℚ) : ℚ :=
  0.5 * (mathRound (2.0 * (y / lineSpacing - staffLedgerSpace / 2)) : ℚ)

/-- `getYForStaffLineNumber(staffLineNumber, lineSpacing)`:
`Math.round(lineSpacing * (staffLineNumber + staffLedgerSpace / 2))`. -/
def getYForStaffLineNumber (staffLineNumber lineSpacing : ℚ) : ℚ :=
  (mathRound (lineSpacing * (staffLineNumber + staffLedgerSpace / 2)) : ℚ)

/-- The y-offsets at which `drawStaffLines` (script.js) strokes the five
staff lines: `getYForStaffLineNumber(i, getLineSpacing(h))` for `i = 0..4`. -/
def staffLineYs (displayHeight : ℚ) : List ℚ :=
  (List.range 5).map (fun i => getYForStaffLineNumber (i : ℚ) (getLineSpacing displayHeight))

/-- Line spacing used by `drawStaffLines` in the older iteration
(`part_000`): `displayHeight / (numLines + ledgerSpace - 1)`. -/
def getLineSpacingLegacy (displayHeight : ℚ) : ℚ :=
  displayHeight / (numStaffLines + staffLedgerSpace - 1)

/-- The y-offsets drawn by `part_000`'s `drawStaffLines`:
`Math.round(lineSpacing * (i + ledgerSpace / 2))` with the legacy spacing. -/
def staffLineYsLegacy (displayHeight : ℚ) : List ℚ :=
  (List.range 5).map (fun i =>
    (mathRound (getLineSpacingLegacy displayHeight * ((i : ℚ) + staffLedgerSpace / 2)) : ℚ))

/-! ### Round-trip of snapping (C1) -/

/-- Key lemma: the snap/unsnap pair is an exact inverse at integer line
numbers whenever the line spacing is at least 2 logical pixels.  Rounding in
`getYForStaffLineNumber` moves the ideal position by at most 1/2, which the
snap window (a quarter of a line spacing on each side in y-units scaled by
`lineSpacing`) absorbs exactly when `lineSpacing ≥ 2`. -/
theorem snap_round_trip (s : ℚ) (hs : 2 ≤ s) (n : ℤ) :
    getStaffLineNumber (getYForStaffLineNumber (n : ℚ) s) s = (n : ℚ) := by
  have hs0 : (0 : ℚ) < s := by linarith
  have harg : getYForStaffLineNumber (n : ℚ) s = (mathRound (s * ((n : ℚ) + 2)) : ℚ) := by
    unfold getYForStaffLineNumber staffLedgerSpace
    norm_num
  rw [harg]
  generalize hK : mathRound (s * ((n : ℚ) + 2)) = K
  have hk_le : (K : ℚ) ≤ s * ((n : ℚ) + 2) + 1/2 := by
    rw [← hK]; unfold mathRound; exact_mod_cast Int.floor_le _
  have hk_gt : s * ((n : ℚ) + 2) - 1/2 < (K : ℚ) := by
    rw [← hK]; unfold mathRound
    have h := Int.lt_floor_add_one (s * ((n : ℚ) + 2) + 1/2)
    push_cast at h ⊢
    linarith
  have key : mathRound (2.0 * ((K : ℚ) / s - staffLedgerSpace / 2)) = 2 * n := by
    unfold mathRound staffLedgerSpace
    rw [Int.floor_eq_iff]
    have hlow : (n : ℚ) + 7/4 < (K : ℚ) / s := by
      rw [lt_div_iff₀ hs0]
      nlinarith
    have hhigh : (K : ℚ) / s < (n : ℚ) + 9/4 := by
      rcases hk_le.lt_or_eq with hlt | heq
      · rw [div_lt_iff₀ hs0]
        nlinarith
      · rcases hs.lt_or_eq with hs2 | hs2
        · rw [div_lt_iff₀ hs0]
          nlinarith
        · exfalso
          rw [← hs2] at heq
          have h5 : (2 : ℚ) * (K : ℚ) = 4 * (n : ℚ) + 9 := by linarith
          have h6 : 2 * K = 4 * n + 9 := by exact_mod_cast h5
          omega
    constructor
    · push_cast
      norm_num
      linarith
    · push_cast
      norm_num
      linarith
  unfold getStaffLineNumber
  rw [key]
  push_cast
  ring

/-- C1 (amended): the round-trip
`getStaffLineNumber (getYForStaffLineNumber line lineSpacing) lineSpacing = line`
holds for every integer line number `0 ≤ line ≤ 4` provided
`logicalHeight ≥ 18` (equivalently `lineSpacing = logicalHeight / 9 ≥ 2`);
it fails for smaller heights (see the counterexample at `logicalHeight = 1`). -/
theorem c1_round_trip_amended (h : ℚ) (hh : 18 ≤ h) (n : ℤ)
    (h0 : 0 ≤ n) (h4 : n ≤ 4) :
    getStaffLineNumber (getYForStaffLineNumber (n : ℚ) (getLineSpacing h))
      (getLineSpacing h) = (n : ℚ) := by
  have hs : (2 : ℚ) ≤ getLineSpacing h := by
    unfold getLineSpacing numStaffLines staffLedgerSpace
    rw [le_div_iff₀ (by norm_num : (0 : ℚ) < 5 + 4)]
    linarith
  exact snap_round_trip (getLineSpacing h) hs n

/-- C1 witness: the round-trip theorem applied at `logicalHeight = 64`,
line 2. -/
theorem c1_round_trip_witness :
    getStaffLineNumber (getYForStaffLineNumber ((2 : ℤ) : ℚ) (getLineSpacing 64))
      (getLineSpacing 64) = ((2 : ℤ) : ℚ) :=
  c1_round_trip_amended 64 (by norm_num) 2 (by norm_num) (by norm_num)

/-- C1 counterexample: at `logicalHeight = 1` (which is `> 0`) and line 0,
the snap of the produced y-offset returns −2, not 0, so the claimed
round-trip for every `logicalHeight > 0` is false. -/
theorem c1_counterexample :
    (0 : ℚ) < 1 ∧
      getStaffLineNumber (getYForStaffLineNumber ((0 : ℤ) : ℚ) (getLineSpacing 1))
        (getLineSpacing 1) = -2 ∧
      (-2 : ℚ) ≠ ((0 : ℤ) : ℚ) := by
  refine ⟨by norm_num, ?_, by norm_num⟩
  norm_num [getStaffLineNumber, getYForStaffLineNumber, getLineSpacing, mathRound,
    numStaffLines, staffLedgerSpace]

/-! ### Drawn staff-line positions at logicalHeight 64 (C2) -/

/-- C2 counterexample: with `lineSpacing = logicalHeight / (numLines + ledgerSpace)`
(the formula of script.js, as the claim states) the five lines at
`logicalHeight = 64` are NOT at `{16, 24, 32, 40, 48}`. -/
theorem c2_counterexample : staffLineYs 64 ≠ [16, 24, 32, 40, 48] := by
  norm_num [staffLineYs, getYForStaffLineNumber, getLineSpacing, mathRound,
    numStaffLines, staffLedgerSpace, List.range_succ]

/-- C2 (amended): with the `numLines + ledgerSpace` convention of script.js
the five staff lines at `logicalHeight = 64` are drawn at y-offsets
`{14, 21, 28, 36, 43}`; the values `{16, 24, 32, 40, 48}` asserted by the
claim arise from the `numLines + ledgerSpace - 1` convention used by
`part_000`'s `drawStaffLines`. -/
theorem c2_staff_line_positions :
    staffLineYs 64 = [14, 21, 28, 36, 43] ∧
      staffLineYsLegacy 64 = [16, 24, 32, 40, 48] := by
  constructor <;>
    norm_num [staffLineYs, staffLineYsLegacy, getYForStaffLineNumber, getLineSpacing,
      getLineSpacingLegacy, mathRound, numStaffLines, staffLedgerSpace, List.range_succ]

/-! ### Snap output is on the half-line grid (C7) -/

/-- C7: for every y and every `logicalHeight > 0`, the snap function
returns an integer multiple of 0.5 (possibly negative or above 4). -/
theorem c7_snap_half_grid (y h : ℚ) (hh : 0 < h) :
    ∃ k : ℤ, getStaffLineNumber y (getLineSpacing h) = (k : ℚ) / 2 := by
  refine ⟨mathRound (2.0 * (y / getLineSpacing h - staffLedgerSpace / 2)), ?_⟩
  unfold getStaffLineNumber
  ring

/-- C7 witness: the half-grid theorem applied at `y = 3`, `logicalHeight = 64`. -/
theorem c7_snap_half_grid_witness :
    (0 : ℚ) < 64 ∧ ∃ k : ℤ, getStaffLineNumber 3 (getLineSpacing 64) = (k : ℚ) / 2 :=
  ⟨by norm_num, c7_snap_half_grid 3 64 (by norm_num)⟩

/-! ### Monotonicity of the snap (C9) -/

/-- C9: for fixed `lineSpacing > 0`, `getStaffLineNumber` is monotone
non-decreasing in the vertical coordinate. -/
theorem c9_snap_monotone (s y₁ y₂ : ℚ) (hs : 0 < s) (hy : y₁ ≤ y₂) :
    getStaffLineNumber y₁ s ≤ getStaffLineNumber y₂ s := by
  unfold getStaffLineNumber
  have h1 : y₁ / s ≤ y₂ / s := (div_le_div_iff_of_pos_right hs).mpr hy
  have h2 : (2.0 : ℚ) * (y₁ / s - staffLedgerSpace / 2) + 1/2 ≤
      2.0 * (y₂ / s - staffLedgerSpace / 2) + 1/2 := by
    norm_num
    linarith
  have h3 : ((mathRound (2.0 * (y₁ / s - staffLedgerSpace / 2)) : ℤ) : ℚ) ≤
      ((mathRound (2.0 * (y₂ / s - staffLedgerSpace / 2)) : ℤ) : ℚ) := by
    unfold mathRound
    exact_mod_cast Int.floor_mono h2
  nlinarith [h3]

/-- C9 witness: monotonicity applied at `lineSpacing = 1`, `y₁ = 0 ≤ y₂ = 1`. -/
theorem c9_snap_monotone_witness :
    getStaffLineNumber 0 1 ≤ getStaffLineNumber 1 1 :=
  c9_snap_monotone 1 0 1 (by norm_num) (by norm_num)

/-! ### Widget (re)initialization sizing (C8) -/

/-- The size computation of `initializeStaffContainer`:
`displayHeight = 64` and
`finalDisplayWidth = availableWidth > 100 ? availableWidth : 400`.
Returned as (width, height). -/
def initializeDisplaySize (availableWidth : ℚ) : ℚ × ℚ :=
  (if availableWidth > 100 then availableWidth else 400, 64)

/-- C8: on every (re)initialization the logical display width equals the
available container width when that is strictly greater than 100, and the
fallback 400 when it is at most 100; the logical display height is
always 64. -/
theorem c8_display_size (w : ℚ) :
    (100 < w → (initializeDisplaySize w).1 = w) ∧
      (w ≤ 100 → (initializeDisplaySize w).1 = 400) ∧
      (initializeDisplaySize w).2 = 64 := by
  refine ⟨fun h => ?_, fun h => ?_, rfl⟩
  · simp [initializeDisplaySize, h]
  · simp [initializeDisplaySize, not_lt.mpr h]

/-- C8 witness: the sizing theorem applied at available widths 150 and 50. -/
theorem c8_display_size_witness :
    (initializeDisplaySize 150).1 = 150 ∧ (initializeDisplaySize 50).1 = 400 ∧
      (initializeDisplaySize 50).2 = 64 :=
  ⟨(c8_display_size 150).1 (by norm_num), (c8_display_size 50).2.1 (by norm_num),
    (c8_display_size 50).2.2⟩

/-! ### Debounced saving (C4) -/

/-- Timeline semantics of `debounce(func, wait)` as used by `saveState`:
given the increasing times (in ms) at which the debounced wrapper is
invoked, each invocation clears the pending timeout and re-schedules `func`
at `t + wait`; the scheduled run fires only if no further invocation
arrives strictly before it.  (An invocation at exactly the scheduled time
is modelled as arriving after the timer fired.)  The result is the list of
times at which the wrapped function — the localStorage write — runs. -/
def debounceWrites (wait : ℕ) : List ℕ → List ℕ
  | [] => []
  | [t] => [t + wait]
  | t₁ :: t₂ :: rest =>
      (if t₂ < t₁ + wait then [] else [t₁ + wait]) ++ debounceWrites wait (t₂ :: rest)

/-- C4: the save debounce is trailing-edge — for any nonempty increasing
trigger sequence in which every consecutive gap is under 1000 ms, exactly
one write occurs, 1000 ms after the last trigger; earlier triggers reset
the timer instead of queuing extra writes. -/
theorem c4_trailing_edge_debounce (ts : List ℕ) (hne : ts ≠ [])
    (hch : ts.Chain' (fun a b => a < b ∧ b < a + 1000)) :
    debounceWrites 1000 ts = [ts.getLastD 0 + 1000] := by
  induction ts with
  | nil => exact absurd rfl hne
  | cons t rest ih =>
    cases rest with
    | nil => simp [debounceWrites, List.getLastD]
    | cons u rest2 =>
      rw [List.chain'_cons] at hch
      have hlt : u < t + 1000 := hch.1.2
      have hrec := ih (by simp) hch.2
      simp only [debounceWrites, if_pos hlt, List.nil_append, hrec]
      simp [List.getLastD_cons]

/-- C4 witness: five triggers at 200 ms intervals produce exactly one
write, 1000 ms after the fifth trigger. -/
theorem c4_trailing_edge_debounce_witness :
    debounceWrites 1000 [0, 200, 400, 600, 800] = [1800] := by
  simpa using c4_trailing_edge_debounce [0, 200, 400, 600, 800] (by simp)
    (by norm_num [List.chain'_cons])

/-! ### The pointer gesture machine (C5)

Embedding of the closures installed by `addDrawingListeners` in script.js:
`isDrawing`, `lastX`, `lastY` are the captured mutable variables; the 2D
context state that `startDrawing` mutates (composite operation and line
width, saved by `ctx.save()` and restored by `ctx.restore()`) is modelled
by `CtxConfig` plus a save-stack.  Each pointer event carries the value of
`container.dataset.tool` at the moment the handler runs, since the handlers
read `container.dataset.tool` afresh rather than capturing it. -/

inductive Tool where
  | write : Tool
  | note : Tool
  | erase : Tool
deriving DecidableEq

/-- The part of the canvas 2D context state touched by the handlers:
`globalCompositeOperation` (`destination-out` or `source-over`) and
`lineWidth`. -/
structure CtxConfig where
  destinationOut : Bool
  lineWidth : ℚ
deriving DecidableEq

/-- Fresh 2D context defaults: `source-over`, line width 1. -/
def initialCtx : CtxConfig := ⟨false, 1⟩

/-- Raster operations issued on the ink layer by the gesture handlers. -/
inductive DrawAction where
  | stroke (fromX fromY toX toY : ℚ) (cfg : CtxConfig) : DrawAction
  | stamp (clearMinX clearMaxX clearHeight cx cy rx ry : ℚ) : DrawAction
deriving DecidableEq

/-- The raster effect of `drawNotehead(coords)`: clears a vertical band
around the x-travel and fills a tilted ellipse centred at the
staff-snapped y.  `H` is the logical display height (64 in the app);
the cleared band's height is `canvas.height = H * resolutionMultiplier`. -/
def drawNoteheadAction (H lastX x y : ℚ) : DrawAction :=
  let lineSpacing := getLineSpacing H
  let staffLine := getStaffLineNumber y lineSpacing
  let cy := getYForStaffLineNumber staffLine lineSpacing
  let minX := min (lastX - 0.6 * lineSpacing) (x - 0.6 * lineSpacing)
  let maxX := max (lastX + 0.6 * lineSpacing) (x + 0.6 * lineSpacing)
  .stamp minX maxX (H * resolutionMultiplier) x cy (0.6 * lineSpacing) (0.45 * lineSpacing)

/-- The mutable state captured by `addDrawingListeners`. -/
structure GestureState where
  isDrawing : Bool
  lastX : ℚ
  lastY : ℚ
  ctx : CtxConfig
  ctxStack : List CtxConfig
deriving DecidableEq

def initialGestureState : GestureState := ⟨false, 0, 0, initialCtx, []⟩

/-- A pointer event as seen by the handlers: whether `event.target` is the
widget's ink canvas, the logical coordinates, and the value of
`container.dataset.tool` at the moment of the event. -/
inductive PointerEvent where
  | down (onCanvas : Bool) (x y : ℚ) (tool : Tool) : PointerEvent
  | move (onCanvas : Bool) (x y : ℚ) (tool : Tool) : PointerEvent
  | up (tool : Tool) : PointerEvent
deriving DecidableEq

/-- One handler invocation: `startDrawing` / `draw` / `stopDrawing` of
script.js, returning the updated captured state and the raster operations
issued. -/
def stepGesture (H : ℚ) (st : GestureState) : PointerEvent → GestureState × List DrawAction
  | .down onCanvas x y tool =>
    if onCanvas then
      let st1 : GestureState :=
        { st with isDrawing := true, lastX := x, lastY := y, ctxStack := st.ctx :: st.ctxStack }
      match tool with
      | .erase => ({ st1 with ctx := ⟨true, eraserWidth⟩ }, [])
      | .write => ({ st1 with ctx := ⟨false, pencilWidth⟩ }, [])
      | .note => (st1, [drawNoteheadAction H x x y])
    else (st, [])
  | .move onCanvas x y tool =>
    if st.isDrawing then
      if onCanvas then
        ({ st with lastX := x, lastY := y },
          if tool = .note then [drawNoteheadAction H st.lastX x y]
          else [.stroke st.lastX st.lastY x y st.ctx])
      else (st, [])
    else (st, [])
  | .up _ =>
    if st.isDrawing then
      match st.ctxStack with
      | [] => ({ st with isDrawing := false }, [])
      | c :: cs => ({ st with isDrawing := false, ctx := c, ctxStack := cs }, [])
    else (st, [])

/-- The raster operations issued while processing a list of pointer events. -/
def runActions (H : ℚ) (st : GestureState) : List PointerEvent → List DrawAction
  | [] => []
  | e :: es => (stepGesture H st e).2 ++ runActions H (stepGesture H st e).1 es

/-- Raster operations of an event sequence started from the initial state. -/
def gestureActions (H : ℚ) (es : List PointerEvent) : List DrawAction :=
  runActions H initialGestureState es

/-- C5 counterexample: a gesture begins with the pencil tool selected; if
the selected tool is changed to `note` before a pointer-move, that move is
interpreted as a note stamp instead of a pencil stroke — the gesture's
behaviour is NOT fixed at pointer-down. -/
theorem c5_counterexample :
    gestureActions 64 [.down true 10 10 .write, .move true 20 20 .note] ≠
      gestureActions 64 [.down true 10 10 .write, .move true 20 20 .write] := by
  simp [gestureActions, runActions, stepGesture, drawNoteheadAction]

/-- A pointer-move's state update does not depend on the current tool. -/
theorem stepGesture_move_state (H : ℚ) (st : GestureState) (a : Bool) (x y : ℚ)
    (t t' : Tool) :
    (stepGesture H st (.move a x y t)).1 = (stepGesture H st (.move a x y t')).1 := by
  by_cases hd : st.isDrawing <;> cases a <;> simp [stepGesture, hd]

/-- A pointer-move's raster operations do not depend on the current tool as
long as the tool is not `note` at that move. -/
theorem stepGesture_move_acts (H : ℚ) (st : GestureState) (a : Bool) (x y : ℚ)
    (t t' : Tool) (h1 : t ≠ Tool.note) (h2 : t' ≠ Tool.note) :
    (stepGesture H st (.move a x y t)).2 = (stepGesture H st (.move a x y t')).2 := by
  by_cases hd : st.isDrawing <;> cases a <;> simp [stepGesture, hd, h1, h2]

/-- A pointer-move description: target flag, coordinates, and the tool
selected at the time of the move. -/
structure MoveEv where
  onCanvas : Bool
  x : ℚ
  y : ℚ
  tool : Tool
deriving DecidableEq

def MoveEv.toEvent (m : MoveEv) : PointerEvent := .move m.onCanvas m.x m.y m.tool

def MoveEv.coords (m : MoveEv) : Bool × ℚ × ℚ := (m.onCanvas, m.x, m.y)

/-- Move sequences agreeing on targets and coordinates, with no `note`
tool value anywhere, produce identical raster operations from any state:
the current tool is not re-consulted except for the note check. -/
theorem runActions_moves_tool_independent (H : ℚ) :
    ∀ (ms ms' : List MoveEv) (st : GestureState),
      ms.map MoveEv.coords = ms'.map MoveEv.coords →
      (∀ m ∈ ms, m.tool ≠ Tool.note) →
      (∀ m ∈ ms', m.tool ≠ Tool.note) →
      runActions H st (ms.map MoveEv.toEvent) = runActions H st (ms'.map MoveEv.toEvent) := by
  intro ms
  induction ms with
  | nil =>
    intro ms' st h _ _
    cases ms' with
    | nil => rfl
    | cons m' tl' => simp at h
  | cons m tl ih =>
    intro ms' st h h1 h2
    cases ms' with
    | nil => simp at h
    | cons m' tl' =>
      simp only [List.map_cons, List.cons.injEq] at h
      obtain ⟨hc, htl⟩ := h
      obtain ⟨a, x, y, t⟩ := m
      obtain ⟨a', x', y', t'⟩ := m'
      simp only [MoveEv.coords, Prod.mk.injEq] at hc
      obtain ⟨rfl, rfl, rfl⟩ := hc
      have h1m : t ≠ Tool.note := h1 ⟨a, x, y, t⟩ (List.mem_cons_self _ _)
      have h2m : t' ≠ Tool.note := h2 ⟨a, x, y, t'⟩ (List.mem_cons_self _ _)
      simp only [List.map_cons, runActions, MoveEv.toEvent]
      rw [stepGesture_move_acts H st a x y t t' h1m h2m,
        stepGesture_move_state H st a x y t t']
      congr 1
      exact ih tl' _ htl (fun mm hm => h1 mm (List.mem_cons_of_mem _ hm))
        (fun mm hm => h2 mm (List.mem_cons_of_mem _ hm))

/-- C5 (amended): the pencil/erase behaviour of a gesture is captured at
pointer-down (via the saved context configuration), and changing the
selected tool between pencil and erase mid-gesture does not change how the
remaining pointer-moves of that gesture are interpreted; only a change to
or from the `note` tool does (see the counterexample), because `draw()`
re-reads `container.dataset.tool` for the note check on every move. -/
theorem c5_nonNote_capture (H : ℚ) (t₀ : Tool) (x₀ y₀ : ℚ) (ms ms' : List MoveEv)
    (hc : ms.map MoveEv.coords = ms'.map MoveEv.coords)
    (h1 : ∀ m ∈ ms, m.tool ≠ Tool.note)
    (h2 : ∀ m ∈ ms', m.tool ≠ Tool.note) :
    gestureActions H (PointerEvent.down true x₀ y₀ t₀ :: ms.map MoveEv.toEvent) =
      gestureActions H (PointerEvent.down true x₀ y₀ t₀ :: ms'.map MoveEv.toEvent) := by
  unfold gestureActions
  simp only [runActions]
  rw [runActions_moves_tool_independent H ms ms'
    (stepGesture H initialGestureState (.down true x₀ y₀ t₀)).1 hc h1 h2]

/-- C5 witness: the amended theorem applied to a pencil-started gesture
whose single move occurs once with the erase tool selected and once with
the pencil tool selected — same raster result. -/
theorem c5_nonNote_capture_witness :
    gestureActions 64 [.down true 0 0 .write, .move true 5 5 .erase] =
      gestureActions 64 [.down true 0 0 .write, .move true 5 5 .write] := by
  simpa [MoveEv.toEvent] using c5_nonNote_capture 64 .write 0 0
    [⟨true, 5, 5, .erase⟩] [⟨true, 5, 5, .write⟩] rfl (by decide) (by decide)

/-! ### Saving the page state (C3)

Embedding of `buildStateObject` and the body of the debounced `saveState`
in script.js.  The store is the single localStorage entry under the fixed
state key; each save rebuilds the whole `{content, canvases}` object from
the staff containers currently present in the editable area and replaces
the stored value, so entries of removed widgets cannot survive a save. -/

/-- A `.staff-container` element as seen by `buildStateObject`:
`dataset.id` (absent ids are warned about and skipped) and the result of
`fgCanvas.toDataURL` (`none` models a missing drawing-area canvas or a
`toDataURL` exception, both of which skip the entry). -/
structure StaffContainer where
  id : Option String
  dataUrl : Option String
deriving DecidableEq

/-- The live page: `editableArea.innerHTML` plus the staff containers the
`querySelectorAll` loop visits, in document order. -/
structure LivePage where
  innerHTML : String
  containers : List StaffContainer
deriving DecidableEq

/-- The JSON state object `{ content, canvases }`; `canvases` is the
association list of per-widget ink entries keyed by widget id. -/
structure StateObject where
  content : String
  canvases : List (String × String)
deriving DecidableEq

/-- The canvases entry contributed by one container: present only when the
container has an id and its canvas export succeeded. -/
def canvasEntry (c : StaffContainer) : Option (String × String) :=
  match c.id, c.dataUrl with
  | some i, some u => some (i, u)
  | _, _ => none

/-- `buildStateObject()`: the page markup plus one ink entry per container
that has an id and an exportable canvas. -/
def buildStateObject (page : LivePage) : StateObject :=
  { content := page.innerHTML
    canvases := page.containers.filterMap canvasEntry }

/-- The single localStorage slot under the fixed state key. -/
abbrev Store := Option StateObject

/-- The body of the debounced `saveState`: `localStorage.setItem` replaces
the whole stored state object with a freshly built one; on a quota error
the store is left untouched. -/
def saveStateNow (store : Store) (page : LivePage) (quotaOk : Bool) : Store :=
  if quotaOk then some (buildStateObject page) else store

/-- The widget ids having an ink entry in the store. -/
def canvasKeys : Store → List String
  | none => []
  | some s => s.canvases.map Prod.fst

/-- The widget ids present in the page markup. -/
def presentIds (page : LivePage) : List String :=
  page.containers.filterMap StaffContainer.id

/-- For containers that all have ids and exportable canvases, the built
ink entries are keyed exactly by the container ids, in order. -/
theorem canvasEntry_keys (l : List StaffContainer)
    (h : ∀ c ∈ l, c.id.isSome ∧ c.dataUrl.isSome) :
    (l.filterMap canvasEntry).map Prod.fst = l.filterMap StaffContainer.id := by
  induction l with
  | nil => rfl
  | cons c l ih =>
    obtain ⟨hid, hurl⟩ := h c (List.mem_cons_self c l)
    obtain ⟨i, hi⟩ := Option.isSome_iff_exists.mp hid
    obtain ⟨u, hu⟩ := Option.isSome_iff_exists.mp hurl
    simp [List.filterMap_cons, canvasEntry, hi, hu,
      ih (fun a ha => h a (List.mem_cons_of_mem _ ha))]

/-- C3: after any completed save, the ink entries in the store are keyed
exactly by the widget ids present in the page at save time, whatever the
store held before — entries of removed widgets are purged because the
whole state object is rebuilt from the current containers.  (Hypothesis:
every container has an id and its canvas export succeeds; a failed export
is skipped by `buildStateObject` and logged.) -/
theorem c3_save_exact_ink_keys (store : Store) (page : LivePage)
    (h : ∀ c ∈ page.containers, c.id.isSome ∧ c.dataUrl.isSome) :
    canvasKeys (saveStateNow store page true) = presentIds page := by
  simp only [saveStateNow, if_pos, canvasKeys, buildStateObject, presentIds]
  exact canvasEntry_keys page.containers h

/-- A page holding two staff widgets with drawable canvases. -/
def pageTwoStaves : LivePage :=
  ⟨"<div>two staves</div>",
    [⟨some "staff_a", some "data:image/png;base64,aaa"⟩,
      ⟨some "staff_b", some "data:image/png;base64,bbb"⟩]⟩

/-- The same page after one widget was removed from the markup. -/
def pageOneStaff : LivePage :=
  ⟨"<div>one staff</div>", [⟨some "staff_a", some "data:image/png;base64,aaa"⟩]⟩

/-- C3 witness: save a page with two widgets, remove one, save again — the
store then holds exactly one ink entry, the one for the remaining widget. -/
theorem c3_save_exact_ink_keys_witness :
    canvasKeys (saveStateNow (saveStateNow none pageTwoStaves true) pageOneStaff true) =
      ["staff_a"] :=
  c3_save_exact_ink_keys (saveStateNow none pageTwoStaves true) pageOneStaff (by decide)

/-! ### Loading and JSON import (C6, C10)

Embedding of `loadStateFromObject` and the load-JSON button handler of
script.js.  The restored document is modelled structurally: the markup
is a text plus the widget ids of the staff containers it contains; each
restored widget's ink layer is cleared by `initializeStaffContainer`
(`fgCtx.clearRect`) and then `loadImageOntoCanvas` is invoked only when
`savedState.canvases[id]` is truthy. -/

/-- Markup, as far as the loader observes it: text content together with
the ids of the staff containers found in it. -/
structure Markup where
  text : String
  widgetIds : List String
deriving DecidableEq

/-- A widget's ink layer after a load: cleared, or redrawn from a data URL
handed to the asynchronous image decode. -/
inductive InkState where
  | empty : InkState
  | restored : String → InkState
deriving DecidableEq

structure WidgetState where
  id : String
  ink : InkState
deriving DecidableEq

/-- The document owned by the editable area. -/
structure DocState where
  markup : Markup
  widgets : List WidgetState
deriving DecidableEq

/-- The placeholder document installed when no saved content exists. -/
def defaultDoc : DocState :=
  ⟨⟨"Start typing here... or double-click to add a staff.<br><br>", []⟩, []⟩

/-- A parsed snapshot object: `content` (`none` models an absent or falsy
field) and `canvases` (`none` models an absent field, whose indexing
throws). -/
structure Snapshot where
  content : Option Markup
  canvases : Option (List (String × String))
deriving DecidableEq

/-- `savedState.canvases[id]`: property lookup in the canvases object. -/
def lookupCanvas (cs : List (String × String)) (i : String) : Option String :=
  (cs.find? (fun p => p.1 == i)).map Prod.snd

/-- Ink of one restored widget: `loadImageOntoCanvas` runs only when the
saved data URL is truthy, otherwise the layer stays cleared. -/
def restoreInk (cs : List (String × String)) (i : String) : InkState :=
  match lookupCanvas cs i with
  | some url => InkState.restored url
  | none => InkState.empty

/-- `loadStateFromObject(savedState)`.  Falsy content installs the default
placeholder document.  Otherwise the markup is installed and every staff
container in it is initialized (ink cleared) and its ink restored from
`savedState.canvases[id]` when present.  When `canvases` is absent and the
markup contains at least one widget, indexing it throws a TypeError after
the markup has already been installed and the fresh canvases are blank:
the partial result is reported on the `error` side. -/
def loadStateFromObject (s : Snapshot) : Except DocState DocState :=
  match s.content with
  | none => .ok defaultDoc
  | some m =>
    match s.canvases with
    | some cs => .ok ⟨m, m.widgetIds.map (fun i => ⟨i, restoreInk cs i⟩)⟩
    | none =>
      match m.widgetIds with
      | [] => .ok ⟨m, []⟩
      | _ :: _ => .error ⟨m, m.widgetIds.map (fun i => ⟨i, InkState.empty⟩)⟩

/-- The widget ids for which a load attempts an image decode
(`loadImageOntoCanvas`): only those with a truthy canvases entry, and none
at all when the loop throws on an absent `canvases` object. -/
def decodeAttemptIds (s : Snapshot) : List String :=
  match s.content, s.canvases with
  | some m, some cs => m.widgetIds.filter (fun i => (lookupCanvas cs i).isSome)
  | _, _ => []

/-- The input pasted into the JSON textbox, as the click handler sees it
after `JSON.parse`: the parse may throw, may produce `null` (so that
`savedState.content` itself throws), or may produce a snapshot object. -/
inductive ImportInput where
  | parseError : ImportInput
  | nullValue : ImportInput
  | parsed : Snapshot → ImportInput
deriving DecidableEq

/-- The load-JSON button handler: `JSON.parse`, `loadStateFromObject`, and
`saveState()` inside one try/catch.  A thrown parse (or the TypeError on
`null.content`) is caught with the document untouched; an exception thrown
mid-restore leaves the partially restored document in place. -/
def importViaJsonPaste (cur : DocState) (input : ImportInput) : DocState :=
  match input with
  | .parseError => cur
  | .nullValue => cur
  | .parsed s =>
    match loadStateFromObject s with
    | .ok d => d
    | .error d => d

/-- A concrete non-empty document, standing for the user's current work. -/
def exampleDoc : DocState :=
  ⟨⟨"my song", ["staff_x"]⟩, [⟨"staff_x", InkState.restored "data:image/png;base64,xxx"⟩]⟩

/-- C6: pasting `{}` — valid JSON but a malformed snapshot (no `content`
field) — is not rejected: `loadStateFromObject` takes the falsy-content
branch and replaces the current document with the default placeholder
(which the subsequent `saveState()` then persists), instead of leaving the
document unchanged as specified. -/
theorem c6_malformed_import_replaces_document :
    importViaJsonPaste exampleDoc (.parsed ⟨none, none⟩) = defaultDoc ∧
      defaultDoc ≠ exampleDoc := by
  constructor
  · rfl
  · decide

/-- C10: restoring a snapshot whose canvases mapping has no entry for a
widget present in the markup leaves that widget's ink layer fully cleared
and attempts no image decode for it; decodes are attempted exactly for the
widgets whose id has an entry. -/
theorem c10_missing_entry_cleared (m : Markup) (cs : List (String × String))
    (i : String) (hmem : i ∈ m.widgetIds) (hnone : lookupCanvas cs i = none) :
    (∃ d, loadStateFromObject ⟨some m, some cs⟩ = .ok d ∧
        ∀ w ∈ d.widgets, w.id = i → w.ink = InkState.empty) ∧
      i ∉ decodeAttemptIds ⟨some m, some cs⟩ ∧
      ∀ j ∈ decodeAttemptIds ⟨some m, some cs⟩, (lookupCanvas cs j).isSome := by
  refine ⟨⟨⟨m, m.widgetIds.map (fun a => ⟨a, restoreInk cs a⟩)⟩, rfl, ?_⟩, ?_, ?_⟩
  · intro w hw hwid
    simp only [List.mem_map] at hw
    obtain ⟨a, ha, rfl⟩ := hw
    simp only at hwid
    rw [hwid] at ha ⊢
    simp [restoreInk, hnone]
  · intro hmem'
    simp only [decodeAttemptIds, List.mem_filter, hnone] at hmem'
    simpa using hmem'.2
  · intro j hj
    simp only [decodeAttemptIds, List.mem_filter] at hj
    exact hj.2

/-- C10 witness: the theorem applied to a markup with widgets `staff_p`,
`staff_q` and a canvases mapping holding an entry only for `staff_q`. -/
theorem c10_missing_entry_cleared_witness :
    (∃ d, loadStateFromObject
          ⟨some ⟨"t", ["staff_p", "staff_q"]⟩, some [("staff_q", "data:image/png;base64,qqq")]⟩ =
          .ok d ∧ ∀ w ∈ d.widgets, w.id = "staff_p" → w.ink = InkState.empty) ∧
      "staff_p" ∉ decodeAttemptIds
          ⟨some ⟨"t", ["staff_p", "staff_q"]⟩, some [("staff_q", "data:image/png;base64,qqq")]⟩ ∧
      ∀ j ∈ decodeAttemptIds
          ⟨some ⟨"t", ["staff_p", "staff_q"]⟩, some [("staff_q", "data:image/png;base64,qqq")]⟩,
        (lookupCanvas [("staff_q", "data:image/png;base64,qqq")] j).isSome :=
  c10_missing_entry_cleared ⟨"t", ["staff_p", "staff_q"]⟩
    [("staff_q", "data:image/png;base64,qqq")] "staff_p" (by decide) (by decide)

end MusicNotes
